import Mathlib

/-!
Shallow embedding of the cross-platform reconciliation engine of the
hubspot-migration-tools repository, together with proofs about its
normalization, gap-analysis, deal-reconciliation, empty-field-audit and
duplicate-detection logic.

Modelling conventions, used uniformly below:
- JS strings are Lean `String`; the JS string methods toLowerCase, trim,
  includes and replace(/\D/g, ...) are re-implemented on `List Char` so that
  they reduce inside the kernel.
- A nullable JS field is `Option X`; `none` models the field being absent or
  the empty string (both falsy in the JS truthiness tests the code uses).
- JS numbers that the code obtains from parseFloat are modelled as exact
  rationals; close-date timestamps (Date.getTime values) are integers of
  epoch milliseconds.
- The JS expression Math.abs(x - y) on integer timestamps is (x - y).natAbs,
  and Math.round(n / d) for integer n and positive integer d is
  floor((2n + d) / (2d)), implemented with Int.fdiv.
-/

/-- Characters of a string, with every character lower-cased; models the JS
method toLowerCase (ASCII behaviour). -/
def jsToLower (s : String) : String := String.mk (s.data.map Char.toLower)

/-- Leading and trailing whitespace removed; models the JS method trim. -/
def jsTrim (s : String) : String :=
  String.mk (((s.data.dropWhile Char.isWhitespace).reverse.dropWhile Char.isWhitespace).reverse)

/-- Containment of a character list in another, checked at every suffix. -/
def charsContain (sub : List Char) : List Char → Bool
  | [] => sub.isEmpty
  | l@(_ :: t) => sub.isPrefixOf l || charsContain sub t

/-- Substring test; models the JS method includes. -/
def strIncludes (s sub : String) : Bool := charsContain sub.data s.data

/-- Digits of a string; models the JS expression replace of all non-digits
with the empty string. -/
def digitsOnly (s : String) : String := String.mk (s.data.filter Char.isDigit)

/-- Tri-state deal status plus the explicit unknown value, the four string
constants open, won, lost, unknown used by the analyzer. -/
inductive DealStatus where
  | statOpen
  | statWon
  | statLost
  | statUnknown
deriving DecidableEq

/-- Status normalization for HubSpot deal stages, from getHubSpotDealStatus in
scripts/data-gap-analyzer.js (identical copy in config/migration-constants.js):
a falsy stage (absent or empty) gives unknown, then case-insensitive substring
tests for closedwon/won and closedlost/lost, else open. -/
def getHubSpotDealStatus (stage : Option String) : DealStatus :=
  match stage with
  | none => .statUnknown
  | some s =>
    if s.isEmpty then .statUnknown
    else
      let lowerStage := jsToLower s
      if strIncludes lowerStage "closedwon" || strIncludes lowerStage "won" then .statWon
      else if strIncludes lowerStage "closedlost" || strIncludes lowerStage "lost" then .statLost
      else .statOpen

/-- Status normalization for ActiveCampaign status codes, from getACDealStatus
in scripts/data-gap-analyzer.js: a switch on the code string with default
unknown. -/
def getACDealStatus (status : Option String) : DealStatus :=
  match status with
  | some s =>
    if s = "0" then .statOpen
    else if s = "1" then .statWon
    else if s = "2" then .statLost
    else if s = "3" then .statOpen
    else .statUnknown
  | none => .statUnknown

/-- Day index (days since the epoch, floor) of an epoch-millisecond timestamp;
models the date part of new Date(t).toISOString(). -/
def utcDayIndex (t : Int) : Int := Int.fdiv t 86400000

/-- Day index of the migration placeholder date 2025-07-16 (the MIGRATION_DATE
constant of the scripts). -/
def MIGRATION_DAY : Int := 20285

/-- Placeholder-date test from analyzeCloseDateMismatch: the HubSpot close
date is present and its UTC calendar day equals the migration date. -/
def isMigrationCloseDate (d : Option Int) : Bool :=
  match d with
  | none => false
  | some t => utcDayIndex t == MIGRATION_DAY

/-- Math.round (n / 86400000) for an integer n of milliseconds, as the code
computes the signed close-date day difference; JS Math.round is
floor(x + 1/2), hence floor((2n + 86400000) / (2 * 86400000)). -/
def jsRoundDays (n : Int) : Int := Int.fdiv (2 * n + 86400000) 172800000

/-- HubSpot deal record: the fields of deal.properties that the analyzer
reads, plus the record id. none models an absent or empty property. -/
structure HSDeal where
  id : String
  dealname : Option String := none
  amount : Option ℚ := none
  dealstage : Option String := none
  closedate : Option Int := none
  dealtype : Option String := none
deriving DecidableEq

/-- ActiveCampaign deal record: the fields the analyzer reads. -/
structure ACDeal where
  id : String
  title : Option String := none
  status : Option String := none
  value : Option ℚ := none
  edate : Option Int := none
  stage : Option String := none
deriving DecidableEq

/-- Issue classifiers of the five close-date decision-tree cases. -/
inductive CloseDateIssueType where
  | missing_close_date_in_hubspot
  | migration_date_needs_update
  | close_date_mismatch
  | missing_close_date_in_ac
  | both_missing_close_date
deriving DecidableEq

/-- Priority labels used by the emitted entries. -/
inductive Priority where
  | HIGH
  | MEDIUM
  | LOW
deriving DecidableEq

/-- Close-date issue entry pushed to gaps.deals.dateMismatches (the fields of
the pushed object that carry data; the fixed concern/recommendation strings
are not modelled). -/
structure DateIssue where
  issueType : CloseDateIssueType
  priority : Priority
  hubspotCloseDate : Option Int
  activeCampaignCloseDate : Option Int
  correctCloseDate : Option Int
  daysDifference : Option Int
  migrationFlag : Bool
deriving DecidableEq

/-- Close-date decision tree from analyzeCloseDateMismatch in
scripts/data-gap-analyzer.js. The JS is a guard (either status won or lost)
around an else-if chain over five cases; here the chain is transliterated by
matching on the two nullable close dates, preserving its first-match
semantics:
case 1 (AC date, no HubSpot date), case 2 (placeholder HubSpot date and an AC
date), case 3 (both dates, not placeholder, more than one day apart), case 4
(HubSpot date only, not placeholder), case 5 (neither date). With both dates
present, reaching past case 2 forces not-placeholder, and with exactly one
date present cases 1/4/5 are the only reachable ones, exactly as in the JS
chain. -/
def analyzeCloseDateMismatch (hsDeal : HSDeal) (acDeal : ACDeal) : Option DateIssue :=
  let hsCloseDate := hsDeal.closedate
  let acCloseDate := acDeal.edate
  let hsStatus := getHubSpotDealStatus hsDeal.dealstage
  let acStatus := getACDealStatus acDeal.status
  let isMig := isMigrationCloseDate hsCloseDate
  if hsStatus = .statWon ∨ hsStatus = .statLost ∨ acStatus = .statWon ∨ acStatus = .statLost then
    match hsCloseDate, acCloseDate with
    | none, some acT =>
      some { issueType := .missing_close_date_in_hubspot, priority := .HIGH,
             hubspotCloseDate := none, activeCampaignCloseDate := some acT,
             correctCloseDate := some acT, daysDifference := none, migrationFlag := false }
    | some hsT, some acT =>
      if isMig then
        some { issueType := .migration_date_needs_update, priority := .HIGH,
               hubspotCloseDate := some hsT, activeCampaignCloseDate := some acT,
               correctCloseDate := some acT, daysDifference := none, migrationFlag := true }
      else if (hsT - acT).natAbs > 86400000 then
        some { issueType := .close_date_mismatch, priority := .HIGH,
               hubspotCloseDate := some hsT, activeCampaignCloseDate := some acT,
               correctCloseDate := some acT, daysDifference := some (jsRoundDays (hsT - acT)),
               migrationFlag := false }
      else none
    | some hsT, none =>
      if isMig then none
      else
        some { issueType := .missing_close_date_in_ac, priority := .MEDIUM,
               hubspotCloseDate := some hsT, activeCampaignCloseDate := none,
               correctCloseDate := some hsT, daysDifference := none, migrationFlag := false }
    | none, none =>
      some { issueType := .both_missing_close_date, priority := .HIGH,
             hubspotCloseDate := none, activeCampaignCloseDate := none,
             correctCloseDate := none, daysDifference := none, migrationFlag := false }
  else none

/-- Day-gap test of close-date case 3, on nullable dates. -/
def datesDifferByMoreThanOneDay (a b : Option Int) : Bool :=
  match a, b with
  | some x, some y => (x - y).natAbs > 86400000
  | _, _ => false

/-- Signed day-count difference of close-date case 3, on nullable dates. -/
def signedDayCount (a b : Option Int) : Option Int :=
  match a, b with
  | some x, some y => some (jsRoundDays (x - y))
  | _, _ => none

/-- Close-date decision tree exactly as the specification states it: the five
conditions of section 4.6 evaluated in the stated order, first match winning,
under the guard that either normalized status is won or lost. Written from
the words of the specification for comparison with the transliterated code. -/
def closeDateSpecTree (hsDeal : HSDeal) (acDeal : ACDeal) : Option DateIssue :=
  let hsCloseDate := hsDeal.closedate
  let acCloseDate := acDeal.edate
  let hsStatus := getHubSpotDealStatus hsDeal.dealstage
  let acStatus := getACDealStatus acDeal.status
  if hsStatus = .statWon ∨ hsStatus = .statLost ∨ acStatus = .statWon ∨ acStatus = .statLost then
    if acCloseDate.isSome ∧ hsCloseDate = none then
      some { issueType := .missing_close_date_in_hubspot, priority := .HIGH,
             hubspotCloseDate := none, activeCampaignCloseDate := acCloseDate,
             correctCloseDate := acCloseDate, daysDifference := none, migrationFlag := false }
    else if isMigrationCloseDate hsCloseDate = true ∧ acCloseDate.isSome then
      some { issueType := .migration_date_needs_update, priority := .HIGH,
             hubspotCloseDate := hsCloseDate, activeCampaignCloseDate := acCloseDate,
             correctCloseDate := acCloseDate, daysDifference := none, migrationFlag := true }
    else if hsCloseDate.isSome ∧ acCloseDate.isSome ∧
            datesDifferByMoreThanOneDay hsCloseDate acCloseDate = true ∧
            isMigrationCloseDate hsCloseDate = false then
      some { issueType := .close_date_mismatch, priority := .HIGH,
             hubspotCloseDate := hsCloseDate, activeCampaignCloseDate := acCloseDate,
             correctCloseDate := acCloseDate,
             daysDifference := signedDayCount hsCloseDate acCloseDate, migrationFlag := false }
    else if hsCloseDate.isSome ∧ acCloseDate = none ∧
            isMigrationCloseDate hsCloseDate = false then
      some { issueType := .missing_close_date_in_ac, priority := .MEDIUM,
             hubspotCloseDate := hsCloseDate, activeCampaignCloseDate := none,
             correctCloseDate := hsCloseDate, daysDifference := none, migrationFlag := false }
    else if hsCloseDate = none ∧ acCloseDate = none then
      some { issueType := .both_missing_close_date, priority := .HIGH,
             hubspotCloseDate := none, activeCampaignCloseDate := none,
             correctCloseDate := none, daysDifference := none, migrationFlag := false }
    else none
  else none

/-- Status-mismatch entry pushed to gaps.deals.statusMismatches. -/
structure StatusMismatchEntry where
  hubspotStatus : DealStatus
  activeCampaignStatus : DealStatus
  hubspotStage : Option String
  activeCampaignStage : Option String
deriving DecidableEq

/-- Value-mismatch entry pushed to gaps.deals.valueMismatches. -/
structure ValueMismatchEntry where
  hubspotAmount : ℚ
  activeCampaignAmount : ℚ
  difference : ℚ
deriving DecidableEq

/-- Result of comparing one joined deal pair. -/
structure DealComparison where
  statusMismatch : Option StatusMismatchEntry
  valueMismatch : Option ValueMismatchEntry
  dateMismatch : Option DateIssue

/-- Field comparison of one joined deal pair, from compareDealFields in
scripts/data-gap-analyzer.js: status entry when the normalized statuses
differ; amounts via parseFloat with default 0, the AC value divided by 100
(cents), value entry when the absolute difference exceeds 0.01 with the
signed difference stored; then the close-date tree. -/
def compareDealFields (hsDeal : HSDeal) (acDeal : ACDeal) : DealComparison :=
  let hsStatus := getHubSpotDealStatus hsDeal.dealstage
  let acStatus := getACDealStatus acDeal.status
  let hsAmount : ℚ := hsDeal.amount.getD 0
  let acAmount : ℚ := acDeal.value.getD 0 / 100
  { statusMismatch :=
      if hsStatus ≠ acStatus then
        some { hubspotStatus := hsStatus, activeCampaignStatus := acStatus,
               hubspotStage := hsDeal.dealstage, activeCampaignStage := acDeal.stage }
      else none,
    valueMismatch :=
      if |hsAmount - acAmount| > 1/100 then
        some { hubspotAmount := hsAmount, activeCampaignAmount := acAmount,
               difference := hsAmount - acAmount }
      else none,
    dateMismatch := analyzeCloseDateMismatch hsDeal acDeal }

/-- Issue string of migration check (a). -/
def issueClosedMissingDate : String := "Closed deal missing close date - migration issue"

/-- Issue string of migration check (b). -/
def issueWonZeroAmount : String := "Won deal missing or zero amount"

/-- Issue string of migration check (c). -/
def issueOpenWithDate : String := "Open deal has close date - possible migration issue"

/-- Issue string of migration check (d). -/
def issueActiveNoDate : String := "Active deal stage without close date - verify if correct"

/-- Issues list one HubSpot deal accumulates in analyzeMigrationIssues: four
independent pushes, in source order. Check (c) and (d) first require a truthy
(present, non-empty) stage; (a) and (b) compare the stage for exact equality
with closedwon/closedlost; (b) fires when the amount is falsy or parses
to 0; (d) uses case-sensitive substring tests on the raw stage. -/
def migrationIssueStrings (deal : HSDeal) : List String :=
  (if (deal.dealstage = some "closedwon" ∨ deal.dealstage = some "closedlost") ∧
      deal.closedate = none then [issueClosedMissingDate] else []) ++
  (if deal.dealstage = some "closedwon" ∧ (deal.amount = none ∨ deal.amount = some 0) then
      [issueWonZeroAmount] else []) ++
  (match deal.dealstage with
   | none => []
   | some s =>
     if ¬s.isEmpty ∧ ¬(s = "closedwon" ∨ s = "closedlost") ∧ deal.closedate.isSome then
       [issueOpenWithDate]
     else []) ++
  (match deal.dealstage with
   | none => []
   | some s =>
     if ¬s.isEmpty ∧ (strIncludes s "appointment" = true ∨ strIncludes s "qualified" = true) ∧
        deal.closedate = none then
       [issueActiveNoDate]
     else [])

/-- Entry pushed to gaps.deals.migrationIssues for one deal. -/
structure MigrationIssueEntry where
  hubspotId : String
  dealName : Option String
  stage : Option String
  amount : Option ℚ
  closeDate : Option Int
  issues : List String
  needsCloseDateReview : Bool
deriving DecidableEq

/-- Migration-integrity scan over HubSpot deals alone, from
analyzeMigrationIssues in scripts/data-gap-analyzer.js: one entry per deal
whose issues list is non-empty, carrying the full list. -/
def analyzeMigrationIssues (hubspotDeals : List HSDeal) : List MigrationIssueEntry :=
  hubspotDeals.filterMap (fun deal =>
    let issues := migrationIssueStrings deal
    if issues.isEmpty then none
    else
      some { hubspotId := deal.id, dealName := deal.dealname, stage := deal.dealstage,
             amount := deal.amount, closeDate := deal.closedate, issues := issues,
             needsCloseDateReview := issues.any (fun i => strIncludes i "close date") })

/-- Join key of a HubSpot deal: dealname lower-cased and trimmed, no key when
falsy, as computed in analyzeDealsComprehensively and analyzeCloseDateIssues. -/
def hsDealJoinName (d : HSDeal) : Option String :=
  match d.dealname with
  | none => none
  | some s =>
    let n := jsTrim (jsToLower s)
    if n.isEmpty then none else some n

/-- Join key of an ActiveCampaign deal: title lower-cased and trimmed. -/
def acDealJoinTitle (d : ACDeal) : Option String :=
  match d.title with
  | none => none
  | some s =>
    let n := jsTrim (jsToLower s)
    if n.isEmpty then none else some n

/-- Second close-date pass, from analyzeCloseDateIssues in
scripts/data-gap-analyzer.js: over HubSpot deals whose stage is exactly
closedwon or closedlost and whose close date is absent, the first
ActiveCampaign deal with the same normalized title is looked up and, when it
has a close date, a missing_close_date_in_hubspot entry is pushed to the same
dateMismatches list. The result here is the list of (HubSpot deal, matched AC
deal, issue type) triples of the pushed entries. -/
def analyzeCloseDateIssues (hubspotDeals : List HSDeal) (acDeals : List ACDeal) :
    List (HSDeal × ACDeal × CloseDateIssueType) :=
  (hubspotDeals.filter (fun d =>
    (d.dealstage == some "closedwon" || d.dealstage == some "closedlost") &&
      d.closedate == none)).filterMap (fun hsDeal =>
    match hsDealJoinName hsDeal with
    | none => none
    | some nm =>
      match acDeals.filter (fun acDeal => acDealJoinTitle acDeal == some nm) with
      | [] => none
      | acDeal :: _ =>
        match acDeal.edate with
        | none => none
        | some _ => some (hsDeal, acDeal, .missing_close_date_in_hubspot))

/-- Contact record: the fields either platform exposes that the analyzer
reads (HubSpot properties.email/firstname/lastname/phone/company/... and the
ActiveCampaign email/firstName/lastName/phone), unified in one record type. -/
structure Contact where
  id : String
  email : Option String := none
  firstname : Option String := none
  lastname : Option String := none
  phone : Option String := none
  company : Option String := none
  jobtitle : Option String := none
  website : Option String := none
  city : Option String := none
  state : Option String := none
deriving DecidableEq

/-- Email key of a contact in the gap analysis, from analyzeContactGaps and
analyzeFieldMismatches: the raw email lower-cased, with a falsy result
(absent email, or empty string) giving no key. Note the source applies
toLowerCase only, with no trim. -/
def contactEmailKey (c : Contact) : Option String :=
  match c.email with
  | none => none
  | some s =>
    let e := jsToLower s
    if e.isEmpty then none else some e

/-- Insertion-ordered map update; models Map.prototype.set: replace in place
when the key exists, append otherwise. -/
def mapSet {α : Type} : List (String × α) → String → α → List (String × α)
  | [], k, v => [(k, v)]
  | p :: rest, k, v => if p.1 == k then (k, v) :: rest else p :: mapSet rest k v

/-- Key-membership test; models Map.prototype.has. -/
def mapHasKey {α : Type} (m : List (String × α)) (k : String) : Bool :=
  m.any (fun p => p.1 == k)

/-- Value lookup; models Map.prototype.get. -/
def mapGet {α : Type} (m : List (String × α)) (k : String) : Option α :=
  (m.find? (fun p => p.1 == k)).map (fun p => p.2)

/-- Email-keyed contact map built by one forEach pass, skipping keyless
records; models the hubspotByEmail / acByEmail Map construction. -/
def buildEmailMap (contacts : List Contact) : List (String × Contact) :=
  contacts.foldl (fun m c =>
    match contactEmailKey c with
    | none => m
    | some k => mapSet m k c) []

/-- Entry pushed to the missing-contact lists (the copied comparison fields;
further copied fields such as creation dates are not modelled). -/
structure MissingContactEntry where
  email : String
  firstName : Option String
  lastName : Option String
  phone : Option String
deriving DecidableEq

/-- Contact gap analysis from analyzeContactGaps in
scripts/data-gap-analyzer.js: two email-keyed maps, then each key of one map
absent from the other produces a missing entry, in map insertion order.
First component: missingInHubSpot; second: missingInActiveCampaign. -/
def analyzeContactGaps (hubspotContacts acContacts : List Contact) :
    List MissingContactEntry × List MissingContactEntry :=
  let hubspotByEmail := buildEmailMap hubspotContacts
  let acByEmail := buildEmailMap acContacts
  (acByEmail.filterMap (fun p =>
      if mapHasKey hubspotByEmail p.1 then none
      else some { email := p.1, firstName := p.2.firstname, lastName := p.2.lastname,
                  phone := p.2.phone }),
   hubspotByEmail.filterMap (fun p =>
      if mapHasKey acByEmail p.1 then none
      else some { email := p.1, firstName := p.2.firstname, lastName := p.2.lastname,
                  phone := p.2.phone }))

/-- Single field mismatch recorded for a joined contact pair. -/
structure FieldMismatch where
  field : String
  activecampaign : Option String
  hubspot : Option String
deriving DecidableEq

/-- Field-mismatch pass from analyzeFieldMismatches in
scripts/data-gap-analyzer.js: over AC contacts whose email key is in the
HubSpot map, names compared by exact equality, phones compared after
stripping non-digits when both stripped phones are truthy; a pair is emitted
only when its mismatch list is non-empty. -/
def analyzeFieldMismatches (hubspotContacts acContacts : List Contact) :
    List (String × List FieldMismatch) :=
  let hubspotByEmail := buildEmailMap hubspotContacts
  acContacts.filterMap (fun acContact =>
    match contactEmailKey acContact with
    | none => none
    | some email =>
      match mapGet hubspotByEmail email with
      | none => none
      | some hsContact =>
        let mismatches :=
          (if acContact.firstname ≠ hsContact.firstname then
            [{ field := "firstName", activecampaign := acContact.firstname,
               hubspot := hsContact.firstname : FieldMismatch }] else []) ++
          (if acContact.lastname ≠ hsContact.lastname then
            [{ field := "lastName", activecampaign := acContact.lastname,
               hubspot := hsContact.lastname : FieldMismatch }] else []) ++
          (match acContact.phone.map digitsOnly, hsContact.phone.map digitsOnly with
           | some acPhone, some hsPhone =>
             if ¬acPhone.isEmpty ∧ ¬hsPhone.isEmpty ∧ acPhone ≠ hsPhone then
               [{ field := "phone", activecampaign := acContact.phone,
                  hubspot := hsContact.phone : FieldMismatch }]
             else []
           | _, _ => [])
        if mismatches.isEmpty then none else some (email, mismatches))

/-- Join keys the field-mismatch pass processes (one occurrence per processed
AC contact): the AC email keys present in the HubSpot map. -/
def processedJoinKeys (hubspotContacts acContacts : List Contact) : List String :=
  let hubspotByEmail := buildEmailMap hubspotContacts
  acContacts.filterMap (fun c =>
    match contactEmailKey c with
    | none => none
    | some k => if mapHasKey hubspotByEmail k then some k else none)

/-- Empty-field statistic entry; percentage is the JS number
count / totalRecords * 100, with none modelling the NaN produced when
totalRecords is 0 (rendered by toFixed as the string NaN, never 0.0). -/
structure EmptyFieldStat where
  field : String
  count : Nat
  percentage : Option ℚ
  examples : List (Option String × String)
deriving DecidableEq

/-- Tracked contact fields, in the fixed source order. -/
def contactTrackedFields : List String :=
  ["firstname", "lastname", "phone", "company", "jobtitle", "website", "city", "state"]

/-- Field access by tracked-field name on a contact. -/
def contactField (c : Contact) (f : String) : Option String :=
  if f = "firstname" then c.firstname
  else if f = "lastname" then c.lastname
  else if f = "phone" then c.phone
  else if f = "company" then c.company
  else if f = "jobtitle" then c.jobtitle
  else if f = "website" then c.website
  else if f = "city" then c.city
  else if f = "state" then c.state
  else none

/-- Emptiness test of the audits: the value is falsy (absent or empty) or
trims to the empty string. -/
def isEmptyFieldValue (v : Option String) : Bool :=
  match v with
  | none => true
  | some s => (jsTrim s).isEmpty

/-- Contact empty-field audit from analyzeContactEmptyFields in
scripts/data-gap-analyzer.js: per tracked field, the count of contacts with
an empty value, the percentage count / total * 100 (NaN when the collection
is empty: the source divides unconditionally), and up to 5 example records in
encounter order. -/
def analyzeContactEmptyFields (hubspotContacts : List Contact) : List EmptyFieldStat :=
  contactTrackedFields.map (fun f =>
    let empties := hubspotContacts.filter (fun c => isEmptyFieldValue (contactField c f))
    { field := f, count := empties.length,
      percentage :=
        if hubspotContacts.length = 0 then none
        else some ((empties.length : ℚ) / (hubspotContacts.length : ℚ) * 100),
      examples := (empties.take 5).map (fun c => (c.email, c.id)) })

/-- Company record: the audited fields. -/
structure Company where
  id : String
  name : Option String := none
  domain : Option String := none
  website : Option String := none
  phone : Option String := none
  city : Option String := none
  state : Option String := none
  industry : Option String := none
  numberofemployees : Option String := none
deriving DecidableEq

/-- Tracked company fields, in the fixed source order. -/
def companyTrackedFields : List String :=
  ["name", "domain", "website", "phone", "city", "state", "industry", "numberofemployees"]

/-- Field access by tracked-field name on a company. -/
def companyField (c : Company) (f : String) : Option String :=
  if f = "name" then c.name
  else if f = "domain" then c.domain
  else if f = "website" then c.website
  else if f = "phone" then c.phone
  else if f = "city" then c.city
  else if f = "state" then c.state
  else if f = "industry" then c.industry
  else if f = "numberofemployees" then c.numberofemployees
  else none

/-- Company empty-field audit from analyzeCompanyEmptyFields. -/
def analyzeCompanyEmptyFields (hubspotCompanies : List Company) : List EmptyFieldStat :=
  companyTrackedFields.map (fun f =>
    let empties := hubspotCompanies.filter (fun c => isEmptyFieldValue (companyField c f))
    { field := f, count := empties.length,
      percentage :=
        if hubspotCompanies.length = 0 then none
        else some ((empties.length : ℚ) / (hubspotCompanies.length : ℚ) * 100),
      examples := (empties.take 5).map (fun c => (c.name, c.id)) })

/-- Tracked deal fields, in the fixed source order. -/
def dealTrackedFields : List String :=
  ["dealname", "amount", "dealstage", "closedate", "dealtype"]

/-- Emptiness of a tracked deal field. The amount and closedate fields are
modelled numerically, so their emptiness is absence. -/
def dealFieldEmpty (d : HSDeal) (f : String) : Bool :=
  if f = "dealname" then isEmptyFieldValue d.dealname
  else if f = "amount" then d.amount.isNone
  else if f = "dealstage" then isEmptyFieldValue d.dealstage
  else if f = "closedate" then d.closedate.isNone
  else if f = "dealtype" then isEmptyFieldValue d.dealtype
  else false

/-- Deal empty-field audit from analyzeDealEmptyFields. -/
def analyzeDealEmptyFields (hubspotDeals : List HSDeal) : List EmptyFieldStat :=
  dealTrackedFields.map (fun f =>
    let empties := hubspotDeals.filter (fun d => dealFieldEmpty d f)
    { field := f, count := empties.length,
      percentage :=
        if hubspotDeals.length = 0 then none
        else some ((empties.length : ℚ) / (hubspotDeals.length : ℚ) * 100),
      examples := (empties.take 5).map (fun d => (d.dealname, d.id)) })

/-- Results of the three empty-field audits. -/
structure EmptyFieldsResult where
  contactStats : List EmptyFieldStat
  companyStats : List EmptyFieldStat
  dealStats : List EmptyFieldStat
deriving DecidableEq

/-- Orchestration from analyzeEmptyFields in scripts/data-gap-analyzer.js:
the contact audit always runs, while the company and deal audits run only
when their collections are non-empty (the stored lists staying at their
initial empty value otherwise). -/
def analyzeEmptyFields (hubspotContacts : List Contact) (hubspotCompanies : List Company)
    (hubspotDeals : List HSDeal) : EmptyFieldsResult :=
  { contactStats := analyzeContactEmptyFields hubspotContacts,
    companyStats :=
      if hubspotCompanies.length > 0 then analyzeCompanyEmptyFields hubspotCompanies else [],
    dealStats :=
      if hubspotDeals.length > 0 then analyzeDealEmptyFields hubspotDeals else [] }

/-- Member summary stored in an email duplicate group (the id and display
name; the further copied fields are informational strings). -/
structure EmailGroupMember where
  id : String
  name : String
deriving DecidableEq

/-- Email duplicate group pushed to duplicates.contacts.byEmail. -/
structure EmailGroup where
  email : String
  count : Nat
  contacts : List EmailGroupMember
deriving DecidableEq

/-- Display name as built for group members: firstname and lastname with
empty defaults, joined by one space, trimmed. -/
def jsDisplayName (c : Contact) : String :=
  jsTrim (c.firstname.getD "" ++ " " ++ c.lastname.getD "")

/-- Email key in the duplicate analyzer, from findDuplicatesByEmail in
scripts/hubspot-duplicate-analyzer.js: lower-cased and trimmed, skipped when
falsy or empty. -/
def dupEmailKey (c : Contact) : Option String :=
  match c.email with
  | none => none
  | some s =>
    let e := jsTrim (jsToLower s)
    if e.isEmpty then none else some e

/-- Insertion-ordered bucket append; models pushing into the emailGroups
plain-object bucket for a key. -/
def bucketPush : List (String × List Contact) → String → Contact → List (String × List Contact)
  | [], k, c => [(k, [c])]
  | p :: rest, k, c =>
    if p.1 == k then (p.1, p.2 ++ [c]) :: rest else p :: bucketPush rest k c

/-- Buckets of contacts sharing an email key, in first-encounter order. -/
def buildEmailBuckets (contacts : List Contact) : List (String × List Contact) :=
  contacts.foldl (fun m c =>
    match dupEmailKey c with
    | none => m
    | some k => bucketPush m k c) []

/-- Duplicate groups computed by one findDuplicatesByEmail pass: every bucket
with more than one member becomes a group, members in encounter order. -/
def computeEmailDuplicateGroups (contacts : List Contact) : List EmailGroup :=
  (buildEmailBuckets contacts).filterMap (fun p =>
    if p.2.length > 1 then
      some { email := p.1, count := p.2.length,
             contacts := p.2.map (fun c => { id := c.id, name := jsDisplayName c }) }
    else none)

/-- Mutable analyzer state the DuplicateAnalyzer constructor initializes: the
fetched contacts and the accumulated duplicates.contacts.byEmail list. -/
structure AnalyzerState where
  contacts : List Contact
  byEmail : List EmailGroup
deriving DecidableEq

/-- State effect of one findDuplicatesByEmail() call: the computed groups are
pushed onto the instance list this.duplicates.contacts.byEmail, which the
constructor initialized once and no call resets. -/
def findDuplicatesByEmail (s : AnalyzerState) : AnalyzerState :=
  { s with byEmail := s.byEmail ++ computeEmailDuplicateGroups s.contacts }

/-- Concrete HubSpot deal used to exercise the second close-date pass. -/
def hsDealEx1 : HSDeal := { id := "h1", dealname := some "Acme Renewal", dealstage := some "closedwon" }

/-- Concrete ActiveCampaign deal matching hsDealEx1 by title, with a close date. -/
def acDealEx1 : ACDeal :=
  { id := "a1", title := some "Acme Renewal", status := some "1", edate := some 1704067200000 }

/-- Concrete open/open joined pair with close dates three days apart. -/
def hsDealEx2 : HSDeal :=
  { id := "h2", dealname := some "Beta", dealstage := some "appointmentscheduled",
    closedate := some 0 }

/-- Concrete ActiveCampaign side of the open/open pair. -/
def acDealEx2 : ACDeal := { id := "a2", title := some "Beta", status := some "0", edate := some 259200000 }

/-- Concrete closed-won pair with close dates three days apart. -/
def hsDealEx3 : HSDeal :=
  { id := "h3", dealname := some "Gamma", dealstage := some "closedwon", closedate := some 259200000 }

/-- Concrete ActiveCampaign side of the closed-won pair. -/
def acDealEx3 : ACDeal := { id := "a3", title := some "Gamma", status := some "0", edate := some 0 }

/-- Concrete deal pair with an open HubSpot stage and an unrecognized AC code. -/
def hsDealEx4 : HSDeal := { id := "h4", dealname := some "Delta", dealstage := some "negotiation" }

/-- Concrete ActiveCampaign deal with the unrecognized status code 9. -/
def acDealEx4 : ACDeal := { id := "a4", title := some "Delta", status := some "9" }

/-- Concrete contact present in HubSpot with a clean email. -/
def hsContactEx : Contact := { id := "hs1", email := some "a@x.com" }

/-- Concrete contact present in ActiveCampaign whose raw email differs only by
case and a trailing space. -/
def acContactEx : Contact := { id := "ac1", email := some "A@X.com " }

/-- Concrete pair of contacts for the matched-join witness. -/
def hsContactEx2 : Contact := { id := "hs2", email := some "B@y.com" }

/-- Concrete ActiveCampaign contact equal to hsContactEx2 after lower-casing. -/
def acContactEx2 : Contact := { id := "ac2", email := some "b@Y.com" }

/-- Concrete contact with no email at all. -/
def keylessContactEx : Contact := { id := "k1" }

/-- Concrete contact with every tracked field empty. -/
def contactEx3 : Contact := { id := "c3" }

/-- Concrete duplicate pair: same email up to case and trailing space. -/
def dupContactA : Contact := { id := "1", email := some "a@x.com" }

/-- Second member of the concrete duplicate pair. -/
def dupContactB : Contact := { id := "2", email := some "A@X.com " }

/-- Analyzer state freshly constructed over the duplicate pair. -/
def dupStateEx : AnalyzerState := { contacts := [dupContactA, dupContactB], byEmail := [] }

theorem mapHasKey_cons {α : Type} (p : String × α) (m : List (String × α)) (k : String) :
    mapHasKey (p :: m) k = ((p.1 == k) || mapHasKey m k) := by
  simp [mapHasKey]

theorem mapHasKey_mapSet {α : Type} (m : List (String × α)) (k k2 : String) (v : α) :
    mapHasKey (mapSet m k v) k2 = (mapHasKey m k2 || (k == k2)) := by
  induction m with
  | nil => simp [mapSet, mapHasKey]
  | cons p rest ih =>
    by_cases h : p.1 == k
    · have hpk : p.1 = k := by simpa using h
      simp only [mapSet, h, if_true, mapHasKey_cons, hpk]
      cases hk : (k == k2) <;> cases hr : mapHasKey rest k2 <;> simp [mapHasKey_cons, hk, hr]
    · simp only [mapSet, h, if_false, Bool.false_eq_true, ite_false, mapHasKey_cons, ih]
      cases h1 : (p.1 == k2) <;> cases h2 : mapHasKey rest k2 <;> cases h3 : (k == k2) <;> simp

theorem buildEmailMap_hasKey_aux (l : List Contact) (m : List (String × Contact)) (k : String) :
    mapHasKey
      (l.foldl (fun m c =>
        match contactEmailKey c with
        | none => m
        | some k => mapSet m k c) m) k =
      (mapHasKey m k || l.any (fun c => contactEmailKey c == some k)) := by
  induction l generalizing m with
  | nil => simp
  | cons c t ih =>
    simp only [List.foldl_cons, List.any_cons, ih]
    cases hk : contactEmailKey c with
    | none => simp [hk]
    | some k1 =>
      have hss : (some k1 == some k) = (k1 == k) := rfl
      simp only [hk, mapHasKey_mapSet, hss, Bool.or_assoc]

theorem buildEmailMap_hasKey (l : List Contact) (k : String) :
    mapHasKey (buildEmailMap l) k = l.any (fun c => contactEmailKey c == some k) := by
  simpa [mapHasKey] using buildEmailMap_hasKey_aux l [] k

theorem mapHasKey_iff {α : Type} (m : List (String × α)) (k : String) :
    mapHasKey m k = true ↔ ∃ p ∈ m, p.1 = k := by
  simp [mapHasKey, List.any_eq_true]

theorem buildEmailMap_hasKey_of_mem {l : List Contact} {c : Contact} {k : String}
    (hc : c ∈ l) (hk : contactEmailKey c = some k) :
    mapHasKey (buildEmailMap l) k = true := by
  rw [buildEmailMap_hasKey, List.any_eq_true]
  exact ⟨c, hc, by simp [hk]⟩

theorem jsRoundDays_pos {n : ℤ} (h : 86400000 < n) : 0 < jsRoundDays n := by
  unfold jsRoundDays
  rw [Int.fdiv_eq_ediv _ (by norm_num)]
  have h1 : (1 : ℤ) ≤ (2 * n + 86400000) / 172800000 := by
    rw [Int.le_ediv_iff_mul_le (by norm_num)]
    omega
  omega

theorem jsRoundDays_neg {n : ℤ} (h : n < -86400000) : jsRoundDays n < 0 := by
  unfold jsRoundDays
  exact Int.fdiv_neg' (by omega) (by norm_num)

/-- C6 counterexample: an absent deal stage normalizes to unknown, not to
open, refuting the claim that every non-won/non-lost case yields open. The
empty stage behaves the same. -/
theorem hubspotStatus_absent_counterexample :
    getHubSpotDealStatus none = DealStatus.statUnknown ∧
    getHubSpotDealStatus (some "") = DealStatus.statUnknown ∧
    DealStatus.statUnknown ≠ DealStatus.statOpen := by
  decide

/-- C6 (amended): for a present, non-empty stage the normalization returns
won on a case-insensitive closedwon/won substring match, lost on a
closedlost/lost match when no won match fired, and open otherwise; an absent
or empty stage returns unknown. -/
theorem hubspotStatus_substring_rules :
    getHubSpotDealStatus none = DealStatus.statUnknown ∧
    getHubSpotDealStatus (some "") = DealStatus.statUnknown ∧
    ∀ s : String, s.isEmpty = false →
      ((strIncludes (jsToLower s) "closedwon" = true ∨ strIncludes (jsToLower s) "won" = true) →
        getHubSpotDealStatus (some s) = DealStatus.statWon) ∧
      ((strIncludes (jsToLower s) "closedwon" = false ∧ strIncludes (jsToLower s) "won" = false) →
       (strIncludes (jsToLower s) "closedlost" = true ∨ strIncludes (jsToLower s) "lost" = true) →
        getHubSpotDealStatus (some s) = DealStatus.statLost) ∧
      ((strIncludes (jsToLower s) "closedwon" = false ∧ strIncludes (jsToLower s) "won" = false) →
       (strIncludes (jsToLower s) "closedlost" = false ∧ strIncludes (jsToLower s) "lost" = false) →
        getHubSpotDealStatus (some s) = DealStatus.statOpen) := by
  refine ⟨by decide, by decide, fun s hs => ⟨?_, ?_, ?_⟩⟩
  · rintro (h | h) <;> simp [getHubSpotDealStatus, hs, h]
  · rintro ⟨h1, h2⟩ (h | h) <;> simp [getHubSpotDealStatus, hs, h1, h2, h]
  · rintro ⟨h1, h2⟩ ⟨h3, h4⟩
    simp [getHubSpotDealStatus, hs, h1, h2, h3, h4]

/-- C6 witness: the substring rules applied at the concrete stage closedwon. -/
theorem hubspotStatus_substring_rules_witness :
    getHubSpotDealStatus (some "closedwon") = DealStatus.statWon :=
  ((hubspotStatus_substring_rules.2.2 "closedwon" (by decide)).1) (Or.inl (by decide))

/-- C7: the ActiveCampaign code table maps 0 to open, 1 to won, 2 to lost,
3 to open, every other value (absent included) to unknown and never to open,
and the deal status comparison records a mismatch entry exactly when the two
normalized statuses differ, so unknown against open is recorded, never
treated as equal. -/
theorem acStatus_table_and_mismatch :
    (getACDealStatus (some "0") = DealStatus.statOpen ∧
     getACDealStatus (some "1") = DealStatus.statWon ∧
     getACDealStatus (some "2") = DealStatus.statLost ∧
     getACDealStatus (some "3") = DealStatus.statOpen) ∧
    (∀ st : Option String, st ≠ some "0" → st ≠ some "1" → st ≠ some "2" → st ≠ some "3" →
      getACDealStatus st = DealStatus.statUnknown) ∧
    DealStatus.statUnknown ≠ DealStatus.statOpen ∧
    (∀ (hsDeal : HSDeal) (acDeal : ACDeal),
      getHubSpotDealStatus hsDeal.dealstage ≠ getACDealStatus acDeal.status →
        (compareDealFields hsDeal acDeal).statusMismatch =
          some { hubspotStatus := getHubSpotDealStatus hsDeal.dealstage,
                 activeCampaignStatus := getACDealStatus acDeal.status,
                 hubspotStage := hsDeal.dealstage, activeCampaignStage := acDeal.stage }) ∧
    (∀ (hsDeal : HSDeal) (acDeal : ACDeal),
      getHubSpotDealStatus hsDeal.dealstage = getACDealStatus acDeal.status →
        (compareDealFields hsDeal acDeal).statusMismatch = none) := by
  refine ⟨by decide, ?_, by decide, ?_, ?_⟩
  · intro st h0 h1 h2 h3
    cases st with
    | none => rfl
    | some s =>
      have g0 : s ≠ "0" := by simpa using h0
      have g1 : s ≠ "1" := by simpa using h1
      have g2 : s ≠ "2" := by simpa using h2
      have g3 : s ≠ "3" := by simpa using h3
      simp [getACDealStatus, g0, g1, g2, g3]
  · intro hsDeal acDeal h
    simp [compareDealFields, h]
  · intro hsDeal acDeal h
    simp [compareDealFields, h]

/-- C7 witness: an open HubSpot stage against the unrecognized AC code 9
produces a recorded status mismatch carrying open versus unknown. -/
theorem acStatus_table_and_mismatch_witness :
    (compareDealFields hsDealEx4 acDealEx4).statusMismatch =
      some { hubspotStatus := getHubSpotDealStatus hsDealEx4.dealstage,
             activeCampaignStatus := getACDealStatus acDealEx4.status,
             hubspotStage := hsDealEx4.dealstage, activeCampaignStage := acDealEx4.stage } :=
  acStatus_table_and_mismatch.2.2.2.1 hsDealEx4 acDealEx4 (by decide)

/-- C8: the legacy deal value (with parseFloat default 0) is divided by 100
before comparison, a value-mismatch entry is emitted exactly when the
absolute difference of the CRM amount and the converted legacy amount
strictly exceeds 0.01, and the stored difference and converted amount are the
signed CRM-minus-legacy quantity and the divided value. -/
theorem valueMismatch_tolerance_signed :
    ∀ (hsDeal : HSDeal) (acDeal : ACDeal),
      ((compareDealFields hsDeal acDeal).valueMismatch.isSome = true ↔
        |hsDeal.amount.getD 0 - acDeal.value.getD 0 / 100| > 1/100) ∧
      ((compareDealFields hsDeal acDeal).valueMismatch.map ValueMismatchEntry.difference =
        if |hsDeal.amount.getD 0 - acDeal.value.getD 0 / 100| > 1/100 then
          some (hsDeal.amount.getD 0 - acDeal.value.getD 0 / 100)
        else none) ∧
      ((compareDealFields hsDeal acDeal).valueMismatch.map ValueMismatchEntry.activeCampaignAmount =
        if |hsDeal.amount.getD 0 - acDeal.value.getD 0 / 100| > 1/100 then
          some (acDeal.value.getD 0 / 100)
        else none) := by
  intro hsDeal acDeal
  by_cases h : |hsDeal.amount.getD 0 - acDeal.value.getD 0 / 100| > 1/100 <;>
    simp [compareDealFields, h]

/-- C5 counterexample: a joined pair with both close dates present, three
days apart and away from the placeholder, on which no close_date_mismatch
issue is emitted because neither side is won or lost; the difference
condition of the claim holds, refuting the stated iff. -/
theorem closeDateMismatch_guard_counterexample :
    (hsDealEx2.closedate = some 0 ∧ acDealEx2.edate = some 259200000 ∧
     isMigrationCloseDate hsDealEx2.closedate = false ∧
     ((0 : ℤ) - 259200000).natAbs > 86400000) ∧
    analyzeCloseDateMismatch hsDealEx2 acDealEx2 = none := by
  decide

/-- C5 (amended): for a joined pair where either normalized status is won or
lost, both close dates are present and the CRM date is not the placeholder, a
close_date_mismatch issue is emitted exactly when the dates differ by
strictly more than 86400000 milliseconds, the stored day count is the
rounded signed difference, and that count keeps the sign of the difference. -/
theorem closeDateMismatch_threshold_and_sign :
    ∀ (hsDeal : HSDeal) (acDeal : ACDeal) (hsT acT : ℤ),
      (getHubSpotDealStatus hsDeal.dealstage = DealStatus.statWon ∨
       getHubSpotDealStatus hsDeal.dealstage = DealStatus.statLost ∨
       getACDealStatus acDeal.status = DealStatus.statWon ∨
       getACDealStatus acDeal.status = DealStatus.statLost) →
      hsDeal.closedate = some hsT → acDeal.edate = some acT →
      isMigrationCloseDate hsDeal.closedate = false →
      (((analyzeCloseDateMismatch hsDeal acDeal).map DateIssue.issueType =
          some CloseDateIssueType.close_date_mismatch) ↔ (hsT - acT).natAbs > 86400000) ∧
      ((hsT - acT).natAbs > 86400000 →
        ((analyzeCloseDateMismatch hsDeal acDeal).bind DateIssue.daysDifference =
           some (jsRoundDays (hsT - acT)))) ∧
      (86400000 < hsT - acT → 0 < jsRoundDays (hsT - acT)) ∧
      (hsT - acT < -86400000 → jsRoundDays (hsT - acT) < 0) := by
  intro hsDeal acDeal hsT acT hguard hhs hac hmig
  rw [hhs] at hmig
  have hmain : analyzeCloseDateMismatch hsDeal acDeal =
      if (hsT - acT).natAbs > 86400000 then
        some { issueType := .close_date_mismatch, priority := .HIGH,
               hubspotCloseDate := some hsT, activeCampaignCloseDate := some acT,
               correctCloseDate := some acT, daysDifference := some (jsRoundDays (hsT - acT)),
               migrationFlag := false }
      else none := by
    simp only [analyzeCloseDateMismatch, hhs, hac]
    rw [if_pos hguard]
    simp [hmig]
  refine ⟨?_, ?_, fun h => jsRoundDays_pos h, fun h => jsRoundDays_neg h⟩
  · rw [hmain]
    by_cases h : (hsT - acT).natAbs > 86400000 <;> simp [h]
  · intro h
    rw [hmain, if_pos h]
    rfl

/-- C5 witness: a closed-won pair with dates three days apart away from the
placeholder, on which the amended iff yields the emitted mismatch issue. -/
theorem closeDateMismatch_threshold_witness :
    (analyzeCloseDateMismatch hsDealEx3 acDealEx3).map DateIssue.issueType =
      some CloseDateIssueType.close_date_mismatch :=
  ((closeDateMismatch_threshold_and_sign hsDealEx3 acDealEx3 259200000 0
    (Or.inl (by decide)) rfl rfl (by decide)).1).mpr (by decide)

theorem hsStatus_closedwon : getHubSpotDealStatus (some "closedwon") = DealStatus.statWon := by
  decide

theorem hsStatus_closedlost : getHubSpotDealStatus (some "closedlost") = DealStatus.statLost := by
  decide

/-- C1: the transliterated close-date analysis equals the five-case tree of
the specification evaluated in the stated order with first match winning
(hence at most one issue per pair from the comparison pass), and every entry
the second pass (analyzeCloseDateIssues) emits for a pair carries the type
missing_close_date_in_hubspot, which is exactly the type the comparison pass
assigns that pair, so across the whole run at most one of the five issue
types is emitted for any joined won/lost pair. -/
theorem closeDateTree_exclusive :
    (∀ (hsDeal : HSDeal) (acDeal : ACDeal),
      analyzeCloseDateMismatch hsDeal acDeal = closeDateSpecTree hsDeal acDeal) ∧
    (∀ (hubspotDeals : List HSDeal) (acDeals : List ACDeal)
       (p : HSDeal × ACDeal × CloseDateIssueType),
      p ∈ analyzeCloseDateIssues hubspotDeals acDeals →
        p.2.2 = CloseDateIssueType.missing_close_date_in_hubspot ∧
        (analyzeCloseDateMismatch p.1 p.2.1).map DateIssue.issueType =
          some CloseDateIssueType.missing_close_date_in_hubspot) := by
  constructor
  · intro hsDeal acDeal
    simp only [analyzeCloseDateMismatch, closeDateSpecTree]
    by_cases hg : (getHubSpotDealStatus hsDeal.dealstage = DealStatus.statWon ∨
        getHubSpotDealStatus hsDeal.dealstage = DealStatus.statLost ∨
        getACDealStatus acDeal.status = DealStatus.statWon ∨
        getACDealStatus acDeal.status = DealStatus.statLost)
    · rw [if_pos hg, if_pos hg]
      cases hhs : hsDeal.closedate with
      | none =>
        cases hac : acDeal.edate with
        | none => simp [isMigrationCloseDate]
        | some acT => simp
      | some hsT =>
        cases hac : acDeal.edate with
        | some acT =>
          by_cases hm : isMigrationCloseDate (some hsT) = true
          · simp [hm]
          · have hm2 : isMigrationCloseDate (some hsT) = false := by
              simpa using hm
            by_cases hd : (hsT - acT).natAbs > 86400000
            · simp [hm2, hd, datesDifferByMoreThanOneDay, signedDayCount]
            · simp [hm2, hd, datesDifferByMoreThanOneDay]
        | none =>
          by_cases hm : isMigrationCloseDate (some hsT) = true
          · simp [hm]
          · have hm2 : isMigrationCloseDate (some hsT) = false := by
              simpa using hm
            simp [hm2]
    · rw [if_neg hg, if_neg hg]
  · intro hubspotDeals acDeals p hp
    simp only [analyzeCloseDateIssues, List.mem_filterMap, List.mem_filter] at hp
    obtain ⟨hsDeal, ⟨hmem, hpred⟩, hsome⟩ := hp
    rw [Bool.and_eq_true, Bool.or_eq_true] at hpred
    obtain ⟨hstage, hdate⟩ := hpred
    have hdate2 : hsDeal.closedate = none := by simpa using hdate
    cases hnm : hsDealJoinName hsDeal with
    | none => simp [hnm] at hsome
    | some nm =>
      simp only [hnm] at hsome
      cases hfl : acDeals.filter (fun acDeal => acDealJoinTitle acDeal == some nm) with
      | nil => simp [hfl] at hsome
      | cons acDeal rest =>
        simp only [hfl] at hsome
        cases hed : acDeal.edate with
        | none => simp [hed] at hsome
        | some e =>
          simp only [hed, Option.some.injEq] at hsome
          subst hsome
          have hstat : getHubSpotDealStatus hsDeal.dealstage = DealStatus.statWon ∨
              getHubSpotDealStatus hsDeal.dealstage = DealStatus.statLost := by
            rcases hstage with h | h
            · left
              have hh : hsDeal.dealstage = some "closedwon" := by simpa using h
              rw [hh]; exact hsStatus_closedwon
            · right
              have hh : hsDeal.dealstage = some "closedlost" := by simpa using h
              rw [hh]; exact hsStatus_closedlost
          have hguard : getHubSpotDealStatus hsDeal.dealstage = DealStatus.statWon ∨
              getHubSpotDealStatus hsDeal.dealstage = DealStatus.statLost ∨
              getACDealStatus acDeal.status = DealStatus.statWon ∨
              getACDealStatus acDeal.status = DealStatus.statLost := by
            rcases hstat with h | h
            · exact Or.inl h
            · exact Or.inr (Or.inl h)
          refine ⟨rfl, ?_⟩
          simp only [analyzeCloseDateMismatch]
          rw [if_pos hguard]
          simp [hdate2, hed]

/-- C1 witness: a concrete closed-won deal with no close date whose matching
AC deal has one; the second pass emits for this pair, and the comparison pass
assigns it the same missing_close_date_in_hubspot type. -/
theorem closeDateTree_exclusive_witness :
    (analyzeCloseDateMismatch hsDealEx1 acDealEx1).map DateIssue.issueType =
      some CloseDateIssueType.missing_close_date_in_hubspot :=
  (closeDateTree_exclusive.2 [hsDealEx1] [acDealEx1]
    (hsDealEx1, acDealEx1, CloseDateIssueType.missing_close_date_in_hubspot) (by decide)).2

theorem mem_keys_iff_hasKey {α : Type} (m : List (String × α)) (k : String) :
    k ∈ m.map Prod.fst ↔ mapHasKey m k = true := by
  simp only [mapHasKey, List.any_eq_true, List.mem_map, beq_iff_eq]

theorem missingKeys_eq (m1 : List (String × Contact)) (m2 : List (String × Contact)) :
    (m2.filterMap (fun p =>
       if mapHasKey m1 p.1 then none
       else some { email := p.1, firstName := p.2.firstname, lastName := p.2.lastname,
                   phone := p.2.phone : MissingContactEntry })).map MissingContactEntry.email =
      (m2.map Prod.fst).filter (fun k => !mapHasKey m1 k) := by
  induction m2 with
  | nil => rfl
  | cons p t ih =>
    by_cases h : mapHasKey m1 p.1 <;>
      simp [List.filterMap_cons, List.filter_cons, h, ih]

theorem exists_pair_mem_iff_hasKey {α : Type} (m : List (String × α)) (k : String) :
    (∃ v, (k, v) ∈ m) ↔ mapHasKey m k = true := by
  unfold mapHasKey
  rw [List.any_eq_true]
  constructor
  · rintro ⟨v, hv⟩
    exact ⟨(k, v), hv, by simp⟩
  · rintro ⟨p, hp, hpk⟩
    have hk : p.1 = k := by simpa using hpk
    refine ⟨p.2, ?_⟩
    rw [← hk]
    simpa using hp

theorem mem_missingInHubSpot (hubspotContacts acContacts : List Contact) (k : String) :
    k ∈ (analyzeContactGaps hubspotContacts acContacts).1.map MissingContactEntry.email ↔
      (mapHasKey (buildEmailMap acContacts) k = true ∧
       mapHasKey (buildEmailMap hubspotContacts) k = false) := by
  simp only [analyzeContactGaps]
  rw [missingKeys_eq]
  simp [List.mem_filter, mem_keys_iff_hasKey, exists_pair_mem_iff_hasKey]

theorem mem_missingInActiveCampaign (hubspotContacts acContacts : List Contact) (k : String) :
    k ∈ (analyzeContactGaps hubspotContacts acContacts).2.map MissingContactEntry.email ↔
      (mapHasKey (buildEmailMap hubspotContacts) k = true ∧
       mapHasKey (buildEmailMap acContacts) k = false) := by
  simp only [analyzeContactGaps]
  rw [missingKeys_eq]
  simp [List.mem_filter, mem_keys_iff_hasKey, exists_pair_mem_iff_hasKey]

theorem mem_processedJoinKeys (hubspotContacts acContacts : List Contact) (k : String) :
    k ∈ processedJoinKeys hubspotContacts acContacts ↔
      (mapHasKey (buildEmailMap acContacts) k = true ∧
       mapHasKey (buildEmailMap hubspotContacts) k = true) := by
  simp only [processedJoinKeys, List.mem_filterMap]
  constructor
  · rintro ⟨c, hc, hg⟩
    cases hk : contactEmailKey c with
    | none => simp [hk] at hg
    | some k1 =>
      simp only [hk] at hg
      by_cases hH : mapHasKey (buildEmailMap hubspotContacts) k1
      · simp only [hH, if_true, Option.some.injEq] at hg
        subst hg
        exact ⟨buildEmailMap_hasKey_of_mem hc hk, hH⟩
      · simp [hH] at hg
  · rintro ⟨hac, hhs⟩
    rw [buildEmailMap_hasKey, List.any_eq_true] at hac
    obtain ⟨c, hc, hck⟩ := hac
    have hck2 : contactEmailKey c = some k := by simpa using hck
    exact ⟨c, hc, by simp [hck2, hhs]⟩

/-- C9: for every key, membership in missingInHubSpot, in the joined keys the
field-mismatch pass processes, and in missingInActiveCampaign partitions the
union of both platforms of join keys: the three classes cover exactly the
union and are pairwise disjoint. -/
theorem contactGaps_partition :
    ∀ (hubspotContacts acContacts : List Contact) (k : String),
      ((k ∈ (analyzeContactGaps hubspotContacts acContacts).1.map MissingContactEntry.email ∨
        k ∈ processedJoinKeys hubspotContacts acContacts ∨
        k ∈ (analyzeContactGaps hubspotContacts acContacts).2.map MissingContactEntry.email) ↔
       (mapHasKey (buildEmailMap hubspotContacts) k = true ∨
        mapHasKey (buildEmailMap acContacts) k = true)) ∧
      ¬(k ∈ (analyzeContactGaps hubspotContacts acContacts).1.map MissingContactEntry.email ∧
        k ∈ processedJoinKeys hubspotContacts acContacts) ∧
      ¬(k ∈ (analyzeContactGaps hubspotContacts acContacts).1.map MissingContactEntry.email ∧
        k ∈ (analyzeContactGaps hubspotContacts acContacts).2.map MissingContactEntry.email) ∧
      ¬(k ∈ processedJoinKeys hubspotContacts acContacts ∧
        k ∈ (analyzeContactGaps hubspotContacts acContacts).2.map MissingContactEntry.email) := by
  intro hubspotContacts acContacts k
  rw [mem_missingInHubSpot, mem_missingInActiveCampaign, mem_processedJoinKeys]
  cases hA : mapHasKey (buildEmailMap acContacts) k <;>
    cases hH : mapHasKey (buildEmailMap hubspotContacts) k <;> simp

theorem buildEmailMap_cons_none {c : Contact} (l : List Contact)
    (h : contactEmailKey c = none) : buildEmailMap (c :: l) = buildEmailMap l := by
  simp [buildEmailMap, List.foldl_cons, h]

/-- C4 counterexample: two raw emails equal after trimming and lower-casing
but differing by a trailing space are not joined: the analyzer, which
lower-cases without trimming, reports each side as missing from the other. -/
theorem contactGaps_trim_counterexample :
    jsTrim (jsToLower "A@X.com ") = jsToLower "a@x.com" ∧
    (analyzeContactGaps [hsContactEx] [acContactEx]).1.map MissingContactEntry.email =
      ["a@x.com "] ∧
    (analyzeContactGaps [hsContactEx] [acContactEx]).2.map MissingContactEntry.email =
      ["a@x.com"] := by
  decide

/-- C4 (amended): the contact join key is the raw email lower-cased with no
trimming, so two contacts whose raw emails agree after lower-casing alone are
joined and reported missing on neither side, and a record whose email yields
no key (absent, or lower-casing to the empty string) contributes nothing to
the gap or mismatch analysis. -/
theorem contactGaps_join_lowercase_only :
    (∀ (hubspotContacts acContacts : List Contact) (hsC acC : Contact) (he ae : String),
      hsC ∈ hubspotContacts → acC ∈ acContacts →
      hsC.email = some he → acC.email = some ae →
      jsToLower he = jsToLower ae → (jsToLower ae).isEmpty = false →
        (jsToLower ae ∉
            (analyzeContactGaps hubspotContacts acContacts).1.map MissingContactEntry.email ∧
         jsToLower he ∉
            (analyzeContactGaps hubspotContacts acContacts).2.map MissingContactEntry.email)) ∧
    (∀ (c : Contact) (hubspotContacts acContacts : List Contact),
      contactEmailKey c = none →
        (analyzeContactGaps (c :: hubspotContacts) acContacts =
           analyzeContactGaps hubspotContacts acContacts ∧
         analyzeContactGaps hubspotContacts (c :: acContacts) =
           analyzeContactGaps hubspotContacts acContacts ∧
         analyzeFieldMismatches (c :: hubspotContacts) acContacts =
           analyzeFieldMismatches hubspotContacts acContacts ∧
         analyzeFieldMismatches hubspotContacts (c :: acContacts) =
           analyzeFieldMismatches hubspotContacts acContacts)) := by
  constructor
  · intro hubspotContacts acContacts hsC acC he ae hmemH hmemA hhe hae heq hne
    have hne2 : (jsToLower he).isEmpty = false := by rw [heq]; exact hne
    have hkeyA : contactEmailKey acC = some (jsToLower ae) := by
      simp [contactEmailKey, hae, hne]
    have hkeyH : contactEmailKey hsC = some (jsToLower he) := by
      simp [contactEmailKey, hhe, hne2]
    have hA : mapHasKey (buildEmailMap acContacts) (jsToLower ae) = true :=
      buildEmailMap_hasKey_of_mem hmemA hkeyA
    have hH : mapHasKey (buildEmailMap hubspotContacts) (jsToLower he) = true :=
      buildEmailMap_hasKey_of_mem hmemH hkeyH
    constructor
    · rw [mem_missingInHubSpot]
      rintro ⟨-, hcontra⟩
      rw [← heq] at hcontra
      simp [hH] at hcontra
    · rw [mem_missingInActiveCampaign]
      rintro ⟨-, hcontra⟩
      rw [heq] at hcontra
      simp [hA] at hcontra
  · intro c hubspotContacts acContacts hkey
    refine ⟨?_, ?_, ?_, ?_⟩
    · simp [analyzeContactGaps, buildEmailMap_cons_none _ hkey]
    · simp [analyzeContactGaps, buildEmailMap_cons_none _ hkey]
    · simp [analyzeFieldMismatches, buildEmailMap_cons_none _ hkey]
    · simp [analyzeFieldMismatches, buildEmailMap_cons_none _ hkey, List.filterMap_cons, hkey]

/-- C4 witness: a concrete pair equal after lower-casing alone is joined, and
a concrete keyless record leaves the gap analysis unchanged. -/
theorem contactGaps_join_lowercase_only_witness :
    (jsToLower "b@Y.com" ∉
       (analyzeContactGaps [hsContactEx2] [acContactEx2]).1.map MissingContactEntry.email) ∧
    analyzeContactGaps [keylessContactEx] [] = analyzeContactGaps [] [] :=
  ⟨(contactGaps_join_lowercase_only.1 [hsContactEx2] [acContactEx2] hsContactEx2 acContactEx2
      "B@y.com" "b@Y.com" (by decide) (by decide) (by decide) (by decide) (by decide)
      (by decide)).1,
   (contactGaps_join_lowercase_only.2 keylessContactEx [] [] (by decide)).1⟩

/-- C2 counterexample: calling findDuplicatesByEmail twice on the identical
input contacts leaves a doubled stored group sequence, because each call
appends to the instance list the constructor initialized once; the second
result is not identical to the first. -/
theorem findDuplicatesByEmail_twice_counterexample :
    (findDuplicatesByEmail (findDuplicatesByEmail dupStateEx)).byEmail ≠
      (findDuplicatesByEmail dupStateEx).byEmail ∧
    (findDuplicatesByEmail dupStateEx).byEmail.length = 1 ∧
    (findDuplicatesByEmail (findDuplicatesByEmail dupStateEx)).byEmail.length = 2 := by
  decide

/-- C2 (amended): the groups one pass computes are a pure function of the
input contacts with at least two members per group and a correct count
field, and every call appends exactly that same sequence to the accumulated
instance state, so two calls on the identical input leave the sequence
appended twice rather than an identical stored result. -/
theorem findDuplicatesByEmail_appends_pure_delta :
    (∀ s : AnalyzerState,
      (findDuplicatesByEmail s).contacts = s.contacts ∧
      (findDuplicatesByEmail s).byEmail =
        s.byEmail ++ computeEmailDuplicateGroups s.contacts ∧
      (findDuplicatesByEmail (findDuplicatesByEmail s)).byEmail =
        s.byEmail ++
          (computeEmailDuplicateGroups s.contacts ++ computeEmailDuplicateGroups s.contacts)) ∧
    (∀ (contacts : List Contact) (g : EmailGroup),
      g ∈ computeEmailDuplicateGroups contacts →
        2 ≤ g.contacts.length ∧ g.count = g.contacts.length) := by
  constructor
  · intro s
    refine ⟨rfl, rfl, ?_⟩
    simp [findDuplicatesByEmail, List.append_assoc]
  · intro contacts g hg
    simp only [computeEmailDuplicateGroups, List.mem_filterMap] at hg
    obtain ⟨p, hp, hpg⟩ := hg
    by_cases h : p.2.length > 1
    · simp only [h, if_true, Option.some.injEq] at hpg
      subst hpg
      constructor
      · simp only [List.length_map]
        omega
      · simp
    · simp [h] at hpg

/-- C2 witness: the group computed over the concrete duplicate pair has two
members and a matching count. -/
theorem findDuplicatesByEmail_appends_pure_delta_witness :
    2 ≤ ({ email := "a@x.com", count := 2,
           contacts := [{ id := "1", name := "" }, { id := "2", name := "" }] } :
          EmailGroup).contacts.length ∧
    ({ email := "a@x.com", count := 2,
       contacts := [{ id := "1", name := "" }, { id := "2", name := "" }] } :
      EmailGroup).count =
      ({ email := "a@x.com", count := 2,
         contacts := [{ id := "1", name := "" }, { id := "2", name := "" }] } :
        EmailGroup).contacts.length :=
  findDuplicatesByEmail_appends_pure_delta.2 [dupContactA, dupContactB]
    { email := "a@x.com", count := 2,
      contacts := [{ id := "1", name := "" }, { id := "2", name := "" }] } (by decide)

/-- C3 counterexample: the contact audit over 0 records is not skipped and
yields a NaN percentage (modelled none) for each of the eight tracked
fields, never the value 0 the claim states. -/
theorem contactAudit_zero_records_counterexample :
    (analyzeEmptyFields [] [] []).contactStats.map EmptyFieldStat.percentage =
      List.replicate 8 none ∧
    (analyzeEmptyFields [] [] []).contactStats ≠ [] := by
  decide

/-- C3 (amended): over 0 records the company and deal audits are skipped
(their stats lists stay empty), while the contact audit always runs, yielding
one stat per tracked field with count 0, no examples and a NaN percentage; on
a non-empty collection every contact percentage is a number (the division is
defined), and no audit ever throws. -/
theorem emptyFieldAudit_zero_records :
    ∀ (hubspotContacts : List Contact) (hubspotCompanies : List Company)
      (hubspotDeals : List HSDeal),
      (hubspotCompanies = [] →
        (analyzeEmptyFields hubspotContacts hubspotCompanies hubspotDeals).companyStats = []) ∧
      (hubspotDeals = [] →
        (analyzeEmptyFields hubspotContacts hubspotCompanies hubspotDeals).dealStats = []) ∧
      (hubspotContacts = [] →
        (analyzeEmptyFields hubspotContacts hubspotCompanies hubspotDeals).contactStats =
          contactTrackedFields.map (fun f =>
            { field := f, count := 0, percentage := none, examples := [] })) ∧
      (hubspotContacts ≠ [] →
        ((analyzeEmptyFields hubspotContacts hubspotCompanies hubspotDeals).contactStats.all
          (fun st => st.percentage.isSome)) = true) := by
  intro hubspotContacts hubspotCompanies hubspotDeals
  refine ⟨?_, ?_, ?_, ?_⟩
  · intro h
    subst h
    simp [analyzeEmptyFields]
  · intro h
    subst h
    simp [analyzeEmptyFields]
  · intro h
    subst h
    rfl
  · intro h
    rw [List.all_eq_true]
    intro st hst
    simp only [analyzeEmptyFields, analyzeContactEmptyFields, List.mem_map] at hst
    obtain ⟨f, hf, hstat⟩ := hst
    subst hstat
    have hlen : hubspotContacts.length ≠ 0 := by
      simpa [List.length_eq_zero] using h
    simp [hlen]

/-- C3 witness: the behaviour at a one-record contact collection with empty
company and deal collections, and at the empty contact collection. -/
theorem emptyFieldAudit_zero_records_witness :
    (analyzeEmptyFields [contactEx3] [] []).companyStats = [] ∧
    (analyzeEmptyFields [contactEx3] [] []).dealStats = [] ∧
    (analyzeEmptyFields [] [] []).contactStats =
      contactTrackedFields.map (fun f =>
        { field := f, count := 0, percentage := none, examples := [] }) ∧
    ((analyzeEmptyFields [contactEx3] [] []).contactStats.all
      (fun st => st.percentage.isSome)) = true :=
  ⟨(emptyFieldAudit_zero_records [contactEx3] [] []).1 rfl,
   (emptyFieldAudit_zero_records [contactEx3] [] []).2.1 rfl,
   (emptyFieldAudit_zero_records [] [] []).2.2.1 rfl,
   (emptyFieldAudit_zero_records [contactEx3] [] []).2.2.2 (by decide)⟩

theorem mem_ite_singleton {a b : String} {c : Prop} [Decidable c] :
    a ∈ (if c then [b] else []) ↔ (c ∧ a = b) := by
  by_cases h : c <;> simp [h]

theorem filterMap_guard_eq_map_filter {α β : Type} (f : α → β) (q : α → Bool) (l : List α) :
    l.filterMap (fun a => if q a then none else some (f a)) =
      (l.filter (fun a => !q a)).map f := by
  induction l with
  | nil => rfl
  | cons a t ih =>
    by_cases h : q a <;> simp [List.filterMap_cons, List.filter_cons, h, ih]

/-- C10: the migration-issue scan applies its four checks independently:
each issue string is in the issues list of a deal exactly when its own
condition holds, and the scan emits exactly one entry per deal with a
non-empty issues list, carrying the full list (and no entry otherwise). -/
theorem migrationIssues_four_checks :
    (∀ d : HSDeal,
      (issueClosedMissingDate ∈ migrationIssueStrings d ↔
        ((d.dealstage = some "closedwon" ∨ d.dealstage = some "closedlost") ∧
         d.closedate = none)) ∧
      (issueWonZeroAmount ∈ migrationIssueStrings d ↔
        (d.dealstage = some "closedwon" ∧ (d.amount = none ∨ d.amount = some 0))) ∧
      (issueOpenWithDate ∈ migrationIssueStrings d ↔
        (∃ s, d.dealstage = some s ∧ s.isEmpty = false ∧ s ≠ "closedwon" ∧ s ≠ "closedlost" ∧
          d.closedate.isSome = true)) ∧
      (issueActiveNoDate ∈ migrationIssueStrings d ↔
        (∃ s, d.dealstage = some s ∧ s.isEmpty = false ∧
          (strIncludes s "appointment" = true ∨ strIncludes s "qualified" = true) ∧
          d.closedate = none))) ∧
    (∀ hubspotDeals : List HSDeal,
      analyzeMigrationIssues hubspotDeals =
        (hubspotDeals.filter (fun d => !(migrationIssueStrings d).isEmpty)).map (fun d =>
          { hubspotId := d.id, dealName := d.dealname, stage := d.dealstage,
            amount := d.amount, closeDate := d.closedate,
            issues := migrationIssueStrings d,
            needsCloseDateReview :=
              (migrationIssueStrings d).any (fun i => strIncludes i "close date") })) := by
  constructor
  · intro d
    refine ⟨?_, ?_, ?_, ?_⟩
    · simp only [migrationIssueStrings, List.mem_append, mem_ite_singleton]
      cases hst : d.dealstage with
      | none =>
        simp [issueClosedMissingDate, issueWonZeroAmount]
      | some s =>
        simp [issueClosedMissingDate, issueWonZeroAmount, issueOpenWithDate,
          issueActiveNoDate, mem_ite_singleton]
    · simp only [migrationIssueStrings, List.mem_append, mem_ite_singleton]
      cases hst : d.dealstage with
      | none =>
        simp [issueClosedMissingDate, issueWonZeroAmount]
      | some s =>
        simp [issueClosedMissingDate, issueWonZeroAmount, issueOpenWithDate,
          issueActiveNoDate, mem_ite_singleton]
    · simp only [migrationIssueStrings, List.mem_append, mem_ite_singleton]
      cases hst : d.dealstage with
      | none =>
        simp [issueClosedMissingDate, issueWonZeroAmount, issueOpenWithDate]
      | some s =>
        simp [issueClosedMissingDate, issueWonZeroAmount, issueOpenWithDate,
          issueActiveNoDate, mem_ite_singleton, and_assoc]
    · simp only [migrationIssueStrings, List.mem_append, mem_ite_singleton]
      cases hst : d.dealstage with
      | none =>
        simp [issueClosedMissingDate, issueWonZeroAmount, issueActiveNoDate]
      | some s =>
        simp [issueClosedMissingDate, issueWonZeroAmount, issueOpenWithDate,
          issueActiveNoDate, mem_ite_singleton, and_assoc]
  · intro hubspotDeals
    exact filterMap_guard_eq_map_filter
      (fun d => ({ hubspotId := d.id, dealName := d.dealname, stage := d.dealstage,
                   amount := d.amount, closeDate := d.closedate,
                   issues := migrationIssueStrings d,
                   needsCloseDateReview :=
                     (migrationIssueStrings d).any (fun i => strIncludes i "close date") } :
        MigrationIssueEntry))
      (fun d => (migrationIssueStrings d).isEmpty) hubspotDeals
